import Mathlib

/-!
Shallow embedding of the OLC prototype wizard of `src/evennia/prototypes/menus.py`.

The module implements a node-based editing wizard for prototype dictionaries.
We embed the helper functions and node handlers the claims are about:
`_set_prototype_value`, `_set_property`, `_wizard_options`, `_check_prototype_key`,
`_add_attr`, `_add_tag`, `node_destination`, `_keep_diff`, `_update_spawned` and
`node_update_objects`.

Python strings become `String`, dictionaries become insertion-ordered association
lists (matching CPython dict semantics: updating an existing key keeps its
position, a new key is appended), and code that can raise returns
`Except PyErr`.  External collaborators (the prototype registry search, the lock
check, the protfunc parser, the spawner diff and the bulk updater) are passed in
as explicit function arguments, since they live outside this module.
-/

/-! ### Python string primitives

Re-implemented on `List Char` so that every definition is kernel-computable. -/

/-- Whitespace characters recognised by Python `str.strip` (the common ones). -/
def pyCharIsSpace (c : Char) : Bool :=
  c = ' ' || c = '\t' || c = '\n' || c = '\r'

/-- Python `str.strip()`: drop whitespace from both ends. -/
def pyStrip (s : String) : String :=
  String.mk (((s.toList.dropWhile pyCharIsSpace).reverse.dropWhile pyCharIsSpace).reverse)

/-- Python `str.lower()` (ASCII case folding, which covers every key the menu uses). -/
def pyLower (s : String) : String :=
  String.mk (s.toList.map Char.toLower)

/-- Python `str.capitalize()`: first character upper-cased, the rest lower-cased. -/
def pyCapitalize (s : String) : String :=
  match s.toList with
  | [] => ""
  | c :: rest => String.mk (c.toUpper :: rest.map Char.toLower)

/-- The `prop.replace("_", "-")` calls of the module: dashes for underscores. -/
def dashify (s : String) : String :=
  String.mk (s.toList.map (fun c => if c = '_' then '-' else c))

/-- Auxiliary for `splitChar`; the accumulator holds the current field reversed. -/
def splitCharAux (sep : Char) : List Char → List Char → List (List Char)
  | [], acc => [acc.reverse]
  | c :: rest, acc =>
      if c = sep then acc.reverse :: splitCharAux sep rest []
      else splitCharAux sep rest (c :: acc)

/-- Python `str.split(sep)` for a one-character separator (no maxsplit). -/
def splitChar (s : String) (sep : Char) : List String :=
  (splitCharAux sep s.toList []).map String.mk

/-- Join a list of strings with a separator (Python `sep.join`). -/
def joinSep (sep : String) : List String → String
  | [] => ""
  | [x] => x
  | x :: y :: rest => x ++ sep ++ joinSep sep (y :: rest)

/-- Python `s.split(";", 2)`: at most two splits, the tail re-joined. -/
def splitMax2Semi (s : String) : List String :=
  match splitChar s ';' with
  | a :: b :: c :: rest => [a, b, joinSep ";" (c :: rest)]
  | xs => xs

/-- Python `s.split("=", 1)`: split at the first equals sign only.
Only called when the string contains an equals sign. -/
def splitEqOnce (s : String) : String × String :=
  match splitChar s '=' with
  | a :: rest => (a, joinSep "=" rest)
  | [] => (s, "")

/-! ### Values stored in a prototype dictionary -/

/-- An attribute entry: (name, value, category or None, lock string). -/
abbrev AttrTup := String × String × Option String × String

/-- A tag entry: (name, category or None, data string). -/
abbrev TagTup := String × Option String × String

/-- The Python values the wizard stores in the prototype dictionary. -/
inductive PyVal where
  | pyStr : String → PyVal
  | pyList : List String → PyVal
  | pyAttrs : List AttrTup → PyVal
  | pyTags : List TagTup → PyVal
  | pyNone : PyVal
deriving DecidableEq

/-- Python truthiness for the embedded values (`if not value`). -/
def pyTruthy : PyVal → Bool
  | .pyStr s => s != ""
  | .pyList xs => !xs.isEmpty
  | .pyAttrs xs => !xs.isEmpty
  | .pyTags xs => !xs.isEmpty
  | .pyNone => false

/-! ### Ordered dictionaries as association lists -/

/-- CPython dict update: replace the first (unique) occurrence in place,
otherwise append the new key at the end. -/
def dictSet {β : Type} : List (String × β) → String → β → List (String × β)
  | [], k, v => [(k, v)]
  | (k', v') :: rest, k, v =>
      if k' = k then (k, v) :: rest else (k', v') :: dictSet rest k v

/-- CPython dict lookup. -/
def dictGet {β : Type} : List (String × β) → String → Option β
  | [], _ => none
  | (k', v') :: rest, k => if k' = k then some v' else dictGet rest k

/-- A prototype under construction: the mutable dictionary of the session. -/
abbrev ProtoDict := List (String × PyVal)

/-! ### Session state and menu options -/

/-- The parts of `caller.ndb._menutree` the embedded handlers touch:
the in-progress prototype, the new-prototype marker (`olc_new`, modelled as a
Bool: present and truthy versus absent), and the messages sent via
`caller.msg`. -/
structure MenuState where
  olc_prototype : ProtoDict
  olc_new : Bool
  msgs : List String
deriving DecidableEq

/-- Targets of an option's goto field: a node name, a node name with kwargs
(string-valued, as used by the validate option), or the stay-here callback
`lambda caller: None` of the attribute and tag sub-forms. -/
inductive Goto where
  | toNode : String → Goto
  | toNodeKw : String → List (String × String) → Goto
  | stay : Goto
deriving DecidableEq

/-- A selectable menu option: display keys, optional description, target. -/
structure MenuOption where
  key : List String
  desc : Option String
  goto : Goto
deriving DecidableEq

/-- The option dict returned by `_add_attr` and `_add_tag`:
a default option whose goto is `lambda caller: None` (stay on the node). -/
def stayOption : MenuOption := ⟨["_default"], none, .stay⟩

/-- Python exceptions the embedded handlers can raise. -/
inductive PyErr where
  | nameError : String → PyErr
  | unboundLocalError : String → PyErr
  | valueError : String → PyErr
  | keyError : String → PyErr
deriving DecidableEq

/-! ### `_set_prototype_value` and `_set_property` -/

/-- Keyword arguments of `_set_property` with their source defaults applied
at each call site: the property to set, the optional processor (a Python
callable that may raise, hence `Except`), the test-parse flag and the node to
continue to. -/
structure SetPropKwargs where
  prop : String
  processor : Option (String → Except String PyVal)
  testParse : Bool
  nextNode : String

/-- Rendering of a value for the informational message (`json.dumps` fallback).
Display only; never used for control flow. -/
def reprValue : PyVal → String
  | .pyStr s => "\x22" ++ s ++ "\x22"
  | .pyList xs => "[" ++ joinSep ", " (xs.map (fun x => "\x22" ++ x ++ "\x22")) ++ "]"
  | .pyAttrs xs => "[" ++ joinSep ", " (xs.map (fun t => t.1)) ++ "]"
  | .pyTags xs => "[" ++ joinSep ", " (xs.map (fun t => t.1)) ++ "]"
  | .pyNone => "null"

/-- Rendering of `type(value)` for the informational message. -/
def typeName : PyVal → String
  | .pyStr _ => "<class str>"
  | .pyList _ => "<class list>"
  | .pyAttrs _ => "<class list>"
  | .pyTags _ => "<class list>"
  | .pyNone => "<class NoneType>"

/-- The failure message of `_set_property` when the processor raises. -/
def couldNotSetMsg (prop raw err : String) : String :=
  "Could not set " ++ pyCapitalize (dashify prop) ++ " to " ++ raw ++ " (" ++ err ++ ")"

/-- Embedding of `_set_prototype_value` (menus.py lines 99 to 104): write one
field of the prototype dictionary. -/
def set_prototype_value (st : MenuState) (field : String) (value : PyVal) : MenuState :=
  { st with olc_prototype := dictSet st.olc_prototype field value }

/-- The tail of `_set_property` after the processor ran (menus.py lines 143
to 170): a falsy value skips to the next node without touching the prototype;
otherwise the field is written, an informational message (optionally with the
simulated protfunc parse, supplied externally as `pfp`) is emitted and the next
node is returned. -/
def set_property_apply (pfp : PyVal → Option String × PyVal) (st : MenuState)
    (value : PyVal) (kw : SetPropKwargs) : MenuState × Option String :=
  if pyTruthy value = false then (st, some kw.nextNode)
  else
    let st1 := set_prototype_value st kw.prop value
    let out0 := " Set " ++ kw.prop ++ " to " ++ reprValue value ++ " (" ++ typeName value ++ ")."
    let out :=
      if kw.testParse then
        let parsed := pfp value
        let warn :=
          match parsed.1 with
          | some e => [" |yPython literal_eval warning: " ++ e ++ "|n"]
          | none => []
        let changed :=
          if parsed.2 = value then
            [" |gNo change when parsed."]
          else
            [" |g(Example-)value when parsed (" ++ typeName parsed.2 ++ "):|n "
              ++ reprValue parsed.2]
        [out0, " Simulating prototype-func parsing ..."] ++ warn ++ changed
      else [out0]
    ({ st1 with msgs := st1.msgs ++ [joinSep "\n" out] }, some kw.nextNode)

/-- Embedding of `_set_property` (menus.py lines 107 to 170).  Returns the
updated session state and the next node, where `none` models the Python
`return None` that makes the engine re-run the current node. -/
def set_property (pfp : PyVal → Option String × PyVal) (st : MenuState)
    (rawString : String) (kw : SetPropKwargs) : MenuState × Option String :=
  match kw.processor with
  | some proc =>
      match proc rawString with
      | .error err =>
          ({ st with msgs := st.msgs ++ [couldNotSetMsg kw.prop rawString err] }, none)
      | .ok value => set_property_apply pfp st value kw
  | none => set_property_apply pfp st (.pyStr rawString) kw

/-! ### `_wizard_options` (menus.py lines 173 to 195) -/

/-- The Back option: key tuple, colored description, goto the previous node. -/
def mkBackOption (color node : String) : MenuOption :=
  ⟨["|wB|Wack", "b"], some (color ++ "(" ++ dashify node ++ ")|n"), .toNode ("node_" ++ node)⟩

/-- The Forward option: key tuple, colored description, goto the next node. -/
def mkForwardOption (color node : String) : MenuOption :=
  ⟨["|wF|Worward", "f"], some (color ++ "(" ++ dashify node ++ ")|n"), .toNode ("node_" ++ node)⟩

/-- The Index option: jump to the root node. -/
def indexOption : MenuOption := ⟨["|wI|Wndex", "i"], none, .toNode "node_index"⟩

/-- The Validate option: jump to the shared validation node, remembering the
current node in the back kwarg. -/
def mkValidateOption (currNode : String) : MenuOption :=
  ⟨["|wV|Walidate prototype", "validate", "v"], none,
    .toNodeKw "node_validate_prototype" [("back", currNode)]⟩

/-- Embedding of `_wizard_options`: Back when a previous node is declared,
Forward when a next node is declared, Index unless the string index occurs
among (prev, next), Validate when a current node is given (Python string
truthiness is emptiness, and None is modelled as the empty string). -/
def wizard_options (currNode prevNode nextNode color : String) : List MenuOption :=
  (if prevNode = "" then [] else [mkBackOption color prevNode])
    ++ (if nextNode = "" then [] else [mkForwardOption color nextNode])
    ++ (if prevNode = "index" ∨ nextNode = "index" then [] else [indexOption])
    ++ (if currNode = "" then [] else [mkValidateOption currNode])

/-- Navigation options of `node_aliases`: `_wizard_options("aliases", "key", "attrs")`. -/
def nodeAliasesWizardOptions : List MenuOption := wizard_options "aliases" "key" "attrs" "|W"

/-- Navigation options of `node_permissions` (line 915):
`_wizard_options("permissions", "destination", "location")`. -/
def nodePermissionsWizardOptions : List MenuOption :=
  wizard_options "permissions" "destination" "location" "|W"

/-- Navigation options of `node_home` (line 977):
`_wizard_options("home", "aliases", "destination")`. -/
def nodeHomeWizardOptions : List MenuOption := wizard_options "home" "aliases" "destination" "|W"

/-- Navigation options of `node_destination` (line 1005):
`_wizard_options("destination", "home", "prototype_desc")`. -/
def nodeDestinationWizardOptions : List MenuOption :=
  wizard_options "destination" "home" "prototype_desc" "|W"

/-- The goto target of the Back option of an option list (the option whose
shortcut key is the letter b). -/
def backGoto (opts : List MenuOption) : Option Goto :=
  (opts.find? (fun o => o.key.contains "b")).map MenuOption.goto

/-- The goto target of the Forward option of an option list (shortcut f). -/
def forwardGoto (opts : List MenuOption) : Option Goto :=
  (opts.find? (fun o => o.key.contains "f")).map MenuOption.goto

/-! ### `_check_prototype_key` (menus.py lines 366 to 386) -/

/-- Embedding of `_check_prototype_key`.  The registry lookup
`protlib.search_prototype` and the lock check on the existing prototype are
external collaborators, passed as `search` and `lockOk`.  Note the order in the
source: the search runs on the raw input key, and only afterwards is the key
stripped and lower-cased. -/
def check_prototype_key (search : String → List ProtoDict) (lockOk : ProtoDict → Bool)
    (pfp : PyVal → Option String × PyVal) (st : MenuState) (key : String) :
    MenuState × Option String :=
  let oldMatches := search key
  let key' := pyLower (pyStrip key)
  match oldMatches with
  | oldProt :: _ =>
      if lockOk oldProt = false then
        ({ st with msgs := st.msgs ++
            ["Prototype " ++ key' ++ " already exists and you do not have permission to edit it."] },
          some "node_prototype_key")
      else if st.olc_new then
        ({ st with
            olc_new := false
            olc_prototype := oldProt
            msgs := st.msgs ++ ["Prototype already exists. Reloading."] },
          some "node_index")
      else
        set_property pfp st key' ⟨"prototype_key", none, true, "node_prototype_parent"⟩
  | [] =>
      set_property pfp st key' ⟨"prototype_key", none, true, "node_prototype_parent"⟩

/-! ### `_add_attr` (menus.py lines 635 to 683) and `_add_tag` (lines 755 to 812) -/

/-- The attribute list currently stored in the prototype (`prot.get("attrs", [])`).
The wizard stores attribute-tuple lists under this key; any other shape yields
the default empty list. -/
def getAttrs (st : MenuState) : List AttrTup :=
  match dictGet st.olc_prototype "attrs" with
  | some (.pyAttrs xs) => xs
  | _ => []

/-- The tag list currently stored in the prototype (`prot.get("tags", [])`). -/
def getTags (st : MenuState) : List TagTup :=
  match dictGet st.olc_prototype "tags" with
  | some (.pyTags xs) => xs
  | _ => []

/-- Pretty-printing of an attribute tuple (`_display_attribute`).  The source
additionally runs the value through the external protfunc parser before showing
it; the embedding shows the stored value.  Display only. -/
def display_attribute (attr : AttrTup) : String :=
  "Attribute key: " ++ attr.1 ++ " (category: "
    ++ (match attr.2.2.1 with | some c => c | none => "None") ++ ", locks: " ++ attr.2.2.2
    ++ ")\nValue: " ++ attr.2.1

/-- Python `list.insert(ind, a)`: insert before position `ind`, clamping at the
end of the list. -/
def listInsertAt {α : Type} : List α → Nat → α → List α
  | xs, 0, a => a :: xs
  | [], _ + 1, a => [a]
  | x :: xs, n + 1, a => x :: listInsertAt xs n a

/-- Embedding of `_add_attr`.  Input forms: `attr = value`, `attr;category = value`,
`attr;category;lockstring = value`.  The kwargs are the `edit` marker (presence
switches the message to Edited) and the optional `text` override.

Faithful quirks of the source:
* when the input contains no equals sign, the local variable `value` is never
  assigned, and building `attr_tuple = (attrname, value, category, locks)`
  raises `UnboundLocalError` — modelled as the error return;
* the whole left-hand side of the equals sign is lower-cased *before* it is
  split into name, category and lock string, so category and locks are stored
  lower-cased as well;
* an attribute whose name already occurs in the list replaces that entry in
  place (`attrs[ind] = attr_tuple`); otherwise the entry is appended. -/
def add_attr (st : MenuState) (attrString : String) (edit : Bool) (textKw : Option String) :
    Except PyErr (MenuState × String × List MenuOption) :=
  if attrString.toList.contains '=' then
    let parts := splitEqOnce attrString
    let attrname1 := pyLower (pyStrip parts.1)
    let value := pyStrip parts.2
    let (attrname, category, locks) :=
      match splitMax2Semi attrname1 with
      | [a, c] => (a, some c, "")
      | [a, c, l] => (a, some c, l)
      | _ => (attrname1, (none : Option String), "")
    let attrTuple : AttrTup := (attrname, value, category, locks)
    if attrname = "" then
      .ok (st, "Attribute must be given as attrname[;category;locks] = <value>.", [stayOption])
    else
      let attrs := getAttrs st
      let attrs' :=
        match attrs.findIdx? (fun tup => tup.1 = attrname) with
        | some ind => attrs.set ind attrTuple
        | none => attrs ++ [attrTuple]
      let st' := set_prototype_value st "attrs" (.pyAttrs attrs')
      let text :=
        match textKw with
        | some t => t
        | none => (if edit then "Edited " else "Added ") ++ display_attribute attrTuple
      .ok (st', text, [stayOption])
  else
    -- No equals sign: the source never binds the local name value, and the
    -- unconditional attr_tuple construction reads it, raising UnboundLocalError.
    .error (.unboundLocalError "value")

/-- Embedding of `_edit_attr`: re-enter `_add_attr` with `name=value` and the
edit marker set. -/
def edit_attr (st : MenuState) (attrname newValue : String) :
    Except PyErr (MenuState × String × List MenuOption) :=
  add_attr st (attrname ++ "=" ++ newValue) true none

/-- Pretty-printing of a tag tuple (`_display_tag`).  Display only. -/
def display_tag (tag : TagTup) : String :=
  "Tag: " ++ tag.1 ++ " (category: "
    ++ (match tag.2.1 with | some c => c | none => "None")
    ++ (if tag.2.2 = "" then "" else ", data: " ++ tag.2.2) ++ ")"

/-- Embedding of `_add_tag`.  Input forms: `tagname`, `tagname;category`,
`tagname;category;data`.  The `edit` kwarg optionally names an existing tag to
replace (remove the old entry, re-insert the new one at the same position).

Faithful quirk of the source: when the `edit` kwarg names a tag that is not in
the list, `[tup[0] for tup in tags].index(old_tag)` raises `ValueError`, and
the surrounding try block only catches `IndexError`, so the error escapes the
handler — modelled as the error return. -/
def add_tag (st : MenuState) (tagInput : String) (edit : Option String) (textKw : Option String) :
    Except PyErr (MenuState × String × List MenuOption) :=
  let t0 := pyLower (pyStrip tagInput)
  let (tag, category, data) :=
    match splitMax2Semi t0 with
    | [a, c] => (a, some c, "")
    | [a, c, d] => (a, some c, d)
    | _ => (t0, (none : Option String), "")
  let tagTuple : TagTup := (tag, category, data)
  if tag = "" then
    .ok (st, "Tag must be given as tag[;category;data].", [stayOption])
  else
    let tags := getTags st
    let oldTag := (edit.getD "")
    if oldTag = "" then
      let tags' := tags ++ [tagTuple]
      let st' := set_prototype_value st "tags" (.pyTags tags')
      let text :=
        match textKw with
        | some t => t
        | none => (match edit with | some _ => "Edited " | none => "Added ") ++ display_tag tagTuple
      .ok (st', text, [stayOption])
    else
      match tags.findIdx? (fun tup => tup.1 = oldTag) with
      | some ind =>
          let afterDel := tags.eraseIdx ind
          let tags' := if afterDel.isEmpty then [tagTuple] else listInsertAt afterDel ind tagTuple
          let st' := set_prototype_value st "tags" (.pyTags tags')
          let text :=
            match textKw with
            | some t => t
            | none =>
                (match edit with | some _ => "Edited " | none => "Added ") ++ display_tag tagTuple
          .ok (st', text, [stayOption])
      | none =>
          -- list.index raises ValueError here; the except clause of the source
          -- only catches IndexError, so the ValueError escapes the handler.
          .error (.valueError (oldTag ++ " is not in list"))

/-! ### `node_destination` (menus.py lines 989 to 1011) -/

/-- Embedding of `node_destination`.  The first statement of the handler builds
its text via `_get_current_node(caller, "destination")`, but no function of that
name exists anywhere in the module (the other field nodes call
`_get_current_value`), so every call raises `NameError` before any content or
options are produced. -/
def node_destination (st : MenuState) : Except PyErr (MenuState × String × List MenuOption) :=
  let _ := st
  .error (.nameError "_get_current_node")

/-! ### `_keep_diff`, `_update_spawned` and `node_update_objects`
(menus.py lines 1110 to 1201) -/

/-- A diff record: field name to classification (KEEP, UPDATE, REPLACE, REMOVE). -/
abbrev Diff := List (String × String)

/-- A spawned object, as far as the update node reads it: key and dbref. -/
structure SpawnObj where
  key : String
  dbref : String
deriving DecidableEq

/-- The kwargs of `node_update_objects`: prototype, objects to update, node to
go back to, and the optional obj_prototype and diff computed on an earlier
pass (absent kwargs modelled as `none`). -/
structure UpdateKwargs where
  prototype : ProtoDict
  objects : List SpawnObj
  backNode : String
  objPrototype : Option ProtoDict
  diff : Option Diff

/-- Embedding of `_keep_diff` (lines 1121 to 1124): force one key of the
mutable diff to KEEP. -/
def keep_diff (diff : Diff) (key : String) : Diff :=
  dictSet diff key "KEEP"

/-- The kwargs the reset changes option passes back into `node_update_objects`
(lines 1184 to 1186): prototype, back_node and objects only — no diff and no
obj_prototype, so the next pass recomputes the diff from scratch. -/
def resetKwargs (prototype : ProtoDict) (backNode : String) (objects : List SpawnObj) :
    UpdateKwargs :=
  ⟨prototype, objects, backNode, none, none⟩

/-- The diff-selection step of `node_update_objects` (lines 1151 to 1154): a
falsy diff kwarg (absent or empty) makes the node draw one sample object
(`choice(update_objects)`, the random choice passed in as `pick`) and recompute
the diff with `spawner.prototype_diff_from_object` (passed in as `diffFn`). -/
def selectDiff (diffFn : ProtoDict → SpawnObj → Diff × ProtoDict)
    (pick : List SpawnObj → SpawnObj) (kw : UpdateKwargs) : Diff × ProtoDict :=
  match kw.diff with
  | some d =>
      if d.isEmpty then diffFn kw.prototype (pick kw.objects)
      else (d, kw.objPrototype.getD [])
  | none => diffFn kw.prototype (pick kw.objects)

/-- Embedding of `node_update_objects` (lines 1127 to 1201).

With no objects to update the node returns its early text and a default option
back to `back_node`.  Otherwise the handler builds its header text as

  `"Showing random example obj to change: {name} (#{dbref}))\n".format(obj.key, obj.dbref)`

which passes positional arguments to a format string whose fields are named, so
Python raises `KeyError: name`; and on the path where a non-empty diff came in
through the kwargs the local variable `obj` was never assigned, so reading
`obj.key` raises `UnboundLocalError` even earlier.  Every later statement of
the handler (the per-field diff lines, the keep options, the update, reset and
back options — themselves mis-indented into the per-field loop) is unreachable. -/
def node_update_objects (diffFn : ProtoDict → SpawnObj → Diff × ProtoDict)
    (pick : List SpawnObj → SpawnObj) (kw : UpdateKwargs) :
    Except PyErr (String × List MenuOption) :=
  if kw.objects.isEmpty then
    .ok ("There are no existing objects to update.", [⟨["_default"], none, .toNode kw.backNode⟩])
  else if (kw.diff.getD []).isEmpty then
    let _ := selectDiff diffFn pick kw
    .error (.keyError "name")
  else
    .error (.unboundLocalError "obj")

/-- Embedding of `_update_spawned` (lines 1110 to 1118): the only place the
bulk update `spawner.batch_update_objects_with_prototype` (passed in as
`batchUpdate`) is invoked; reports the count and returns the back node. -/
def update_spawned (batchUpdate : ProtoDict → Option Diff → List SpawnObj → Nat)
    (msgs : List String) (kw : UpdateKwargs) : List String × String :=
  let numChanged := batchUpdate kw.prototype kw.diff kw.objects
  (msgs ++ ["|g" ++ toString numChanged ++ " objects were updated successfully.|n"], kw.backNode)

/-! ### Concrete instances used by witnesses and counterexamples -/

/-- A protfunc parser that parses every value to itself with no warning. -/
def pfpId : PyVal → Option String × PyVal := fun v => (none, v)

/-- A registry search that finds no existing prototype. -/
def searchNone : String → List ProtoDict := fun _ => []

/-- A lock check that always grants access. -/
def lockAlways : ProtoDict → Bool := fun _ => true

/-- A fresh wizard session: empty prototype, marked new, no messages yet. -/
def freshState : MenuState := ⟨[], true, []⟩

/-- A session in the middle of editing a loaded prototype. -/
def stDemo : MenuState := ⟨[("key", .pyStr "goblin")], false, []⟩

/-- A processor that always raises (models a non-splittable input). -/
def failProc : String → Except String PyVal := fun _ => .error "not splittable"

/-- The strip processor used by several field nodes (`lambda s: s.strip()`). -/
def stripProc : String → Except String PyVal := fun s => .ok (.pyStr (pyStrip s))

/-- Kwargs of the aliases node default option, with the failing processor. -/
def kwAliasFail : SetPropKwargs := ⟨"aliases", some failProc, true, "node_attrs"⟩

/-- Kwargs of the key node default option (strip processor, forward to aliases). -/
def kwKeyStrip : SetPropKwargs := ⟨"key", some stripProc, true, "node_aliases"⟩

/-- State after one `_add_attr` input, errors discarded (used to chain the
attribute scenario). -/
def addAttrState (st : MenuState) (s : String) : MenuState :=
  match add_attr st s false none with
  | .ok r => r.1
  | .error _ => st

/-- The attribute scenario state: fresh session after entering `agi=5`, then
`str;physical;perm(Builder)=12`, then `con=3`. -/
def attrScenarioState : MenuState :=
  addAttrState (addAttrState (addAttrState freshState "agi=5") "str;physical;perm(Builder)=12")
    "con=3"

/-- A spawned object sampled by the update node. -/
def demoObj : SpawnObj := ⟨"goblin", "#5"⟩

/-- The origin-snapshot prototype of the sampled object. -/
def demoSnapshot : ProtoDict := [("key", .pyStr "goblin"), ("desc", .pyStr "old")]

/-- The prototype being propagated by the update node. -/
def demoProto : ProtoDict := [("prototype_key", .pyStr "gob"), ("key", .pyStr "grunt")]

/-- An external diff computation returning two non-KEEP classifications. -/
def demoDiffFn : ProtoDict → SpawnObj → Diff × ProtoDict :=
  fun _ _ => ([("desc", "UPDATE"), ("key", "REPLACE")], demoSnapshot)

/-- An external diff computation returning an empty diff (nothing changed). -/
def emptyDiffFn : ProtoDict → SpawnObj → Diff × ProtoDict := fun _ _ => ([], demoSnapshot)

/-- A deterministic stand-in for `random.choice`. -/
def demoPick : List SpawnObj → SpawnObj := fun objs => objs.headD demoObj

/-- A bulk updater that reports one update per object handed to it. -/
def countingBatchUpdate : ProtoDict → Option Diff → List SpawnObj → Nat :=
  fun _ _ objs => objs.length

/-- Kwargs as passed by the update option of `node_update_objects` to
`_update_spawned`: prototype, objects, back_node and the finalized diff. -/
def demoUpdateKwargs : UpdateKwargs :=
  ⟨demoProto, [demoObj], "node_index", some demoSnapshot, some [("desc", "UPDATE")]⟩

/-! ### Dictionary lemmas -/

theorem dictGet_dictSet_self {β : Type} (d : List (String × β)) (k : String) (v : β) :
    dictGet (dictSet d k v) k = some v := by
  induction d with
  | nil => simp [dictSet, dictGet]
  | cons hd tl ih =>
      obtain ⟨k', v'⟩ := hd
      by_cases h : k' = k
      · simp [dictSet, dictGet, h]
      · simp [dictSet, dictGet, h, ih]

theorem dictGet_dictSet_ne {β : Type} (d : List (String × β)) (k k' : String) (v : β)
    (h : k' ≠ k) : dictGet (dictSet d k v) k' = dictGet d k' := by
  induction d with
  | nil => simp [dictSet, dictGet, Ne.symm h]
  | cons hd tl ih =>
      obtain ⟨k'', v''⟩ := hd
      by_cases hk : k'' = k
      · simp [dictSet, dictGet, hk, Ne.symm h]
      · simp [dictSet, dictGet, hk, ih]

theorem dictSet_dictSet_self {β : Type} (d : List (String × β)) (k : String) (v w : β) :
    dictSet (dictSet d k v) k w = dictSet d k w := by
  induction d with
  | nil => simp [dictSet]
  | cons hd tl ih =>
      obtain ⟨k', v'⟩ := hd
      by_cases h : k' = k
      · simp [dictSet, h]
      · simp [dictSet, h, ih]

theorem dictSet_of_get_eq {β : Type} (d : List (String × β)) (k : String) (v : β)
    (h : dictGet d k = some v) : dictSet d k v = d := by
  induction d with
  | nil => simp [dictGet] at h
  | cons hd tl ih =>
      obtain ⟨k', v'⟩ := hd
      by_cases hk : k' = k
      · subst hk
        simp [dictGet] at h
        simp [dictSet, h]
      · simp [dictGet, hk] at h
        simp [dictSet, hk, ih h]

/-! ### Claim theorems -/

/-- C1: the claim demands that node handlers never raise — in particular that
`node_destination` returns a (content, options) pair, that `_add_attr` returns
a pair for inputs with no equals sign, and that `_add_tag` with an edit kwarg
naming an absent tag does not raise.  The code violates all three: the handlers
raise NameError (undefined `_get_current_node`), UnboundLocalError (the local
`value` is never bound) and ValueError (uncaught by the IndexError handler)
respectively. -/
theorem node_handlers_raise_at_boundary :
    node_destination freshState = .error (.nameError "_get_current_node")
  ∧ add_attr freshState "strength" false none = .error (.unboundLocalError "value")
  ∧ add_tag freshState "combat" (some "oldtag") none
      = .error (.valueError "oldtag is not in list") :=
  ⟨rfl, rfl, rfl⟩

/-- C2: the claim demands that Back followed by Forward returns to the original
node for every generated field node, naming `node_home` (declared previous
aliases) and `node_permissions` (declared previous destination).  The code
violates it for exactly those nodes: Back from home goes to `node_aliases`,
whose Forward goes to `node_attrs`, not back to `node_home`; Back from
permissions goes to `node_destination`, whose Forward goes to
`node_prototype_desc`, not back to `node_permissions`. -/
theorem back_then_forward_mismatch :
    backGoto nodeHomeWizardOptions = some (.toNode "node_aliases")
  ∧ forwardGoto nodeAliasesWizardOptions = some (.toNode "node_attrs")
  ∧ ("node_attrs" : String) ≠ "node_home"
  ∧ backGoto nodePermissionsWizardOptions = some (.toNode "node_destination")
  ∧ forwardGoto nodeDestinationWizardOptions = some (.toNode "node_prototype_desc")
  ∧ ("node_prototype_desc" : String) ≠ "node_permissions" :=
  ⟨rfl, rfl, by decide, rfl, rfl, by decide⟩

/-- C3: the claim demands that `node_update_objects` renders one line per diff
field and offers a keep option for every non-KEEP entry.  The code renders
nothing: with a freshly computed non-empty diff the header line raises
KeyError (named format fields filled with positional arguments), and with a
diff handed in through the kwargs the unassigned local `obj` raises
UnboundLocalError first. -/
theorem node_update_objects_crashes_before_rendering :
    node_update_objects demoDiffFn demoPick ⟨demoProto, [demoObj], "node_index", none, none⟩
      = .error (.keyError "name")
  ∧ node_update_objects demoDiffFn demoPick
      ⟨demoProto, [demoObj], "node_index", some demoSnapshot,
        some [("desc", "UPDATE"), ("key", "REPLACE")]⟩
      = .error (.unboundLocalError "obj") :=
  ⟨rfl, rfl⟩

/-- C4: the claim demands that the bulk update is reachable only through the
explicit update option (`_update_spawned`) and that this option is offered for
every non-empty instance set, even with an empty diff.  The second half fails:
with a non-empty instance set and an empty computed diff the node raises
KeyError before returning any options, so no update option is ever offered.
The first half is reflected by `update_spawned` being where the bulk updater
is applied (here a counting stand-in, reporting one object updated). -/
theorem update_option_not_offered_on_empty_diff :
    node_update_objects emptyDiffFn demoPick ⟨demoProto, [demoObj], "node_index", none, none⟩
      = .error (.keyError "name")
  ∧ update_spawned countingBatchUpdate [] demoUpdateKwargs
      = (["|g1 objects were updated successfully.|n"], "node_index") :=
  ⟨rfl, rfl⟩

/-- C5 counterexample: the claim states that `str;physical;perm(Builder)=12`
parses to an entry with lock string exactly `perm(Builder)`.  The code
lower-cases the whole left-hand side before splitting off category and locks,
so the stored lock string is `perm(builder)`. -/
theorem add_attr_lowercases_lock_string :
    getAttrs (addAttrState freshState "str;physical;perm(Builder)=12")
      = [("str", "12", some "physical", "perm(builder)")]
  ∧ ("perm(builder)" : String) ≠ "perm(Builder)" :=
  ⟨rfl, by decide⟩

/-- C5 amended: the attribute input parses to the entry
(str, "12", physical, "perm(builder)") — value kept as the entered string,
category and lock string lower-cased along with the attribute name — and
re-adding `str=15` replaces that entry in place at the same index of the
ordered attrs list, leaving all other entries and their positions unchanged. -/
theorem add_attr_replaces_in_place :
    getAttrs attrScenarioState
      = [("agi", "5", none, ""), ("str", "12", some "physical", "perm(builder)"),
          ("con", "3", none, "")]
  ∧ getAttrs (addAttrState attrScenarioState "str=15")
      = [("agi", "5", none, ""), ("str", "15", none, ""), ("con", "3", none, "")] :=
  ⟨rfl, rfl⟩

/-- C6 counterexample: the claim states that for every triple with non-empty
previous and next nodes `_wizard_options` returns exactly the standard four
options.  At the triple (prototype_locks, prototype_tags, index) — the actual
call of `node_prototype_locks` — only three options are returned, because the
Index option is omitted whenever the string index occurs among (prev, next). -/
theorem wizard_options_drops_index_option :
    (wizard_options "prototype_locks" "prototype_tags" "index" "|W").length = 3 :=
  rfl

/-- C6 amended: for every triple of non-empty node identities with neither
previous nor next equal to index, `_wizard_options` returns exactly the four
standard options — Back to node_prev, Forward to node_next, Index to
node_index, and Validate to the shared validation node carrying the current
node as the back kwarg; when index occurs among (prev, next) the Index option
is omitted.  The output is a pure function of the inputs. -/
theorem wizard_options_standard_four (curr prev next color : String)
    (hc : curr ≠ "") (hp : prev ≠ "") (hn : next ≠ "")
    (hpi : prev ≠ "index") (hni : next ≠ "index") :
    wizard_options curr prev next color
      = [mkBackOption color prev, mkForwardOption color next, indexOption,
          mkValidateOption curr]
  ∧ (mkBackOption color prev).goto = .toNode ("node_" ++ prev)
  ∧ (mkForwardOption color next).goto = .toNode ("node_" ++ next)
  ∧ indexOption.goto = .toNode "node_index"
  ∧ (mkValidateOption curr).goto = .toNodeKw "node_validate_prototype" [("back", curr)] := by
  refine ⟨?_, rfl, rfl, rfl, rfl⟩
  simp [wizard_options, hc, hp, hn, hpi, hni]

/-- Witness for the amended C6 theorem at the key node triple. -/
theorem wizard_options_standard_four_witness :
    wizard_options "key" "typeclass" "aliases" "|W"
      = [mkBackOption "|W" "typeclass", mkForwardOption "|W" "aliases", indexOption,
          mkValidateOption "key"]
  ∧ (mkBackOption "|W" "typeclass").goto = .toNode "node_typeclass"
  ∧ (mkForwardOption "|W" "aliases").goto = .toNode "node_aliases"
  ∧ indexOption.goto = .toNode "node_index"
  ∧ (mkValidateOption "key").goto = .toNodeKw "node_validate_prototype" [("back", "key")] :=
  wizard_options_standard_four "key" "typeclass" "aliases" "|W"
    (by decide) (by decide) (by decide) (by decide) (by decide)

/-- C7: when the supplied processor raises on the raw input, `_set_property`
returns None (re-render the current node), surfaces the failure reason in a
user message, and leaves the in-progress prototype completely unmutated. -/
theorem set_property_processor_failure (pfp : PyVal → Option String × PyVal)
    (st : MenuState) (raw err : String) (p : String → Except String PyVal)
    (kw : SetPropKwargs) (hp : kw.processor = some p) (he : p raw = .error err) :
    set_property pfp st raw kw
      = ({ st with msgs := st.msgs ++ [couldNotSetMsg kw.prop raw err] }, none)
  ∧ (set_property pfp st raw kw).1.olc_prototype = st.olc_prototype := by
  constructor
  · simp [set_property, hp, he]
  · simp [set_property, hp, he]

/-- Witness for the C7 theorem: the failing processor on concrete input. -/
theorem set_property_processor_failure_witness :
    set_property pfpId stDemo "a,b" kwAliasFail
      = ({ stDemo with
            msgs := stDemo.msgs ++ [couldNotSetMsg "aliases" "a,b" "not splittable"] }, none)
  ∧ (set_property pfpId stDemo "a,b" kwAliasFail).1.olc_prototype = stDemo.olc_prototype :=
  set_property_processor_failure pfpId stDemo "a,b" "not splittable" failProc kwAliasFail
    rfl rfl

/-- C8 counterexample: the claim states that every `_set_property` call on
which the processor succeeds mutates exactly one field.  With the key node
processor and empty raw input the processor succeeds (returning the empty
string), yet the call mutates no field at all: the prototype stays empty and
the call skips to the next node. -/
theorem set_property_empty_input_mutates_nothing :
    stripProc "" = .ok (.pyStr "")
  ∧ (set_property pfpId freshState "" kwKeyStrip).1.olc_prototype = []
  ∧ (set_property pfpId freshState "" kwKeyStrip).2 = some "node_aliases" :=
  ⟨rfl, rfl, rfl⟩

/-- C8 amended: for every field name, processor and raw input on which the
processor succeeds, calling `_set_property` twice with the identical input
yields the same final prototype as calling it once; each call changes no field
other than the one named by prop; a truthy processed value is written to that
field, and a falsy processed value leaves the prototype entirely unchanged. -/
theorem set_property_idempotent (pfp : PyVal → Option String × PyVal) (st : MenuState)
    (raw : String) (kw : SetPropKwargs) (p : String → Except String PyVal) (v : PyVal)
    (hp : kw.processor = some p) (hv : p raw = .ok v) :
    (set_property pfp (set_property pfp st raw kw).1 raw kw).1.olc_prototype
      = (set_property pfp st raw kw).1.olc_prototype
  ∧ (∀ f, f ≠ kw.prop →
      dictGet (set_property pfp st raw kw).1.olc_prototype f = dictGet st.olc_prototype f)
  ∧ (pyTruthy v = true →
      dictGet (set_property pfp st raw kw).1.olc_prototype kw.prop = some v)
  ∧ (pyTruthy v = false →
      (set_property pfp st raw kw).1.olc_prototype = st.olc_prototype) := by
  cases h : pyTruthy v with
  | false =>
      refine ⟨?_, ?_, ?_, ?_⟩
      · simp [set_property, hp, hv, set_property_apply, h]
      · intro f _
        simp [set_property, hp, hv, set_property_apply, h]
      · intro hcontra
        simp [h] at hcontra
      · intro _
        simp [set_property, hp, hv, set_property_apply, h]
  | true =>
      refine ⟨?_, ?_, ?_, ?_⟩
      · simp [set_property, hp, hv, set_property_apply, h, set_prototype_value,
          dictSet_dictSet_self]
      · intro f hf
        simp [set_property, hp, hv, set_property_apply, h, set_prototype_value]
        exact dictGet_dictSet_ne st.olc_prototype kw.prop f v hf
      · intro _
        simp [set_property, hp, hv, set_property_apply, h, set_prototype_value,
          dictGet_dictSet_self]
      · intro hcontra
        simp [h] at hcontra

/-- Witness for the amended C8 theorem at the key node with non-empty input. -/
theorem set_property_idempotent_witness :
    (set_property pfpId (set_property pfpId freshState " Grunt " kwKeyStrip).1
        " Grunt " kwKeyStrip).1.olc_prototype
      = (set_property pfpId freshState " Grunt " kwKeyStrip).1.olc_prototype
  ∧ (∀ f, f ≠ "key" →
      dictGet (set_property pfpId freshState " Grunt " kwKeyStrip).1.olc_prototype f
        = dictGet freshState.olc_prototype f)
  ∧ (pyTruthy (.pyStr "Grunt") = true →
      dictGet (set_property pfpId freshState " Grunt " kwKeyStrip).1.olc_prototype "key"
        = some (.pyStr "Grunt"))
  ∧ (pyTruthy (.pyStr "Grunt") = false →
      (set_property pfpId freshState " Grunt " kwKeyStrip).1.olc_prototype
        = freshState.olc_prototype) :=
  set_property_idempotent pfpId freshState " Grunt " kwKeyStrip stripProc (.pyStr "Grunt")
    rfl rfl

/-- C9: forcing a field to KEEP via `_keep_diff` is idempotent, and forcing
KEEP on an already-KEPT entry is a no-op; the reset changes option re-enters
`node_update_objects` without a diff kwarg, so the diff-selection step
recomputes a fresh diff (discarding every prior KEEP override, since the fresh
diff depends only on the prototype and the sampled object); a KEEP override
re-applied to the fresh diff wins, until the next recompute again yields the
override-free fresh diff. -/
theorem keep_diff_and_reset_semantics :
    (∀ (d : Diff) (k : String), keep_diff (keep_diff d k) k = keep_diff d k)
  ∧ (∀ (d : Diff) (k : String), dictGet d k = some "KEEP" → keep_diff d k = d)
  ∧ (∀ (p : ProtoDict) (b : String) (objs : List SpawnObj),
      (resetKwargs p b objs).diff = none)
  ∧ (∀ (diffFn : ProtoDict → SpawnObj → Diff × ProtoDict) (pick : List SpawnObj → SpawnObj)
      (p : ProtoDict) (b : String) (objs : List SpawnObj),
      selectDiff diffFn pick (resetKwargs p b objs) = diffFn p (pick objs))
  ∧ (∀ (diffFn : ProtoDict → SpawnObj → Diff × ProtoDict) (pick : List SpawnObj → SpawnObj)
      (p : ProtoDict) (b : String) (objs : List SpawnObj) (k : String),
      dictGet (keep_diff (selectDiff diffFn pick (resetKwargs p b objs)).1 k) k
        = some "KEEP") := by
  refine ⟨?_, ?_, ?_, ?_, ?_⟩
  · intro d k
    exact dictSet_dictSet_self d k "KEEP" "KEEP"
  · intro d k h
    exact dictSet_of_get_eq d k "KEEP" h
  · intro p b objs
    rfl
  · intro diffFn pick p b objs
    rfl
  · intro diffFn pick p b objs k
    exact dictGet_dictSet_self _ k "KEEP"

/-- Witness for the C9 theorem: forcing KEEP on an already-KEPT entry of a
concrete diff is a no-op. -/
theorem keep_diff_and_reset_semantics_witness :
    keep_diff [("desc", "KEEP"), ("key", "UPDATE")] "desc"
      = [("desc", "KEEP"), ("key", "UPDATE")] :=
  keep_diff_and_reset_semantics.2.1 [("desc", "KEEP"), ("key", "UPDATE")] "desc" rfl

/-- C10: for every key accepted at the prototype-key node, the value stored
under prototype_key is the input stripped of surrounding whitespace and
lower-cased (both when no existing prototype matches and when one matches,
edit access is granted and the session is not new); an input that is empty
after stripping advances to node_prototype_parent without mutating anything;
and the existence check runs on the raw un-normalized input: the outcome only
depends on the registry searched with the raw key, never with the normalized
key. -/
theorem prototype_key_normalized_storage (search : String → List ProtoDict)
    (lockOk : ProtoDict → Bool) (pfp : PyVal → Option String × PyVal)
    (st : MenuState) (key : String) :
    (search key = [] → pyStrip key = "" →
      check_prototype_key search lockOk pfp st key = (st, some "node_prototype_parent"))
  ∧ (search key = [] → pyLower (pyStrip key) ≠ "" →
      dictGet (check_prototype_key search lockOk pfp st key).1.olc_prototype "prototype_key"
        = some (.pyStr (pyLower (pyStrip key)))
      ∧ (check_prototype_key search lockOk pfp st key).2 = some "node_prototype_parent")
  ∧ (∀ (oldProt : ProtoDict) (rest : List ProtoDict),
      search key = oldProt :: rest → lockOk oldProt = true → st.olc_new = false →
      pyLower (pyStrip key) ≠ "" →
      dictGet (check_prototype_key search lockOk pfp st key).1.olc_prototype "prototype_key"
        = some (.pyStr (pyLower (pyStrip key))))
  ∧ (∀ (search2 : String → List ProtoDict), search key = search2 key →
      check_prototype_key search lockOk pfp st key
        = check_prototype_key search2 lockOk pfp st key) := by
  refine ⟨?_, ?_, ?_, ?_⟩
  · intro hs hstrip
    have hl : pyLower (pyStrip key) = "" := by rw [hstrip]; decide
    simp [check_prototype_key, hs, hl, set_property, set_property_apply, pyTruthy]
  · intro hs hne
    have ht : pyTruthy (.pyStr (pyLower (pyStrip key))) = true := by
      simp [pyTruthy, hne]
    constructor
    · simp [check_prototype_key, hs, set_property, set_property_apply, ht,
        set_prototype_value, dictGet_dictSet_self]
    · simp [check_prototype_key, hs, set_property, set_property_apply, ht]
  · intro oldProt rest hs hlock hnew hne
    have ht : pyTruthy (.pyStr (pyLower (pyStrip key))) = true := by
      simp [pyTruthy, hne]
    simp [check_prototype_key, hs, hlock, hnew, set_property, set_property_apply, ht,
      set_prototype_value, dictGet_dictSet_self]
  · intro search2 h
    simp [check_prototype_key, h]

/-- Witness for the C10 theorem: a raw key with surrounding whitespace and
mixed case, against an empty registry. -/
theorem prototype_key_normalized_storage_witness :
    dictGet (check_prototype_key searchNone lockAlways pfpId stDemo
        "  GobLin  ").1.olc_prototype "prototype_key" = some (.pyStr "goblin")
  ∧ (check_prototype_key searchNone lockAlways pfpId stDemo "  GobLin  ").2
      = some "node_prototype_parent" := by
  obtain ⟨h1, h2⟩ :=
    (prototype_key_normalized_storage searchNone lockAlways pfpId stDemo "  GobLin  ").2.1
      rfl (by decide)
  refine ⟨?_, h2⟩
  rw [h1]
  decide
